import Mathlib

/-!
Shallow embedding of `src/optimistix/_solver/levenberg_marquardt_gauss_newton.py`:
the Gauss-Newton / Levenberg-Marquardt outer iteration state machine
(`AbstractGaussNewton.init`, `.step`, `.terminate` and the `_GNState` record).

Modelling conventions.
* JAX scalar arrays become the type `Optimistix.Scalar`: a rational number
  together with the IEEE special values `+inf`, `-inf` and `nan`, with
  total arithmetic following the float rules the source relies on
  (`jnp.inf`, comparisons against `nan` being false, and so on).
* Parameter trees, residual vectors and Jacobian operators become
  `List Scalar` and `List (List Scalar)`; the tree utilities from
  `optimistix/_misc.py` (not part of the staged sources) are modelled on
  lists from the spec's description of them.
* The external collaborators consumed by the state machine — the descent
  strategy, the line-search solver, the generic `minimise` driver and the
  Jacobian/residual evaluator `compute_jac_residual`, none of which are
  staged — are fields of the `AbstractGaussNewton` record, so every theorem
  below quantifies over all behaviours of those collaborators.
-/

namespace Optimistix

/-- A JAX floating-point scalar, modelled as a rational plus the special
values `+inf`, `-inf` and `nan` (total float-style arithmetic). -/
inductive Scalar where
  | nan : Scalar
  | negInf : Scalar
  | fin : ℚ → Scalar
  | inf : Scalar
deriving DecidableEq

namespace Scalar

/-- Float negation. -/
def neg : Scalar → Scalar
  | nan => nan
  | negInf => inf
  | inf => negInf
  | fin q => fin (-q)

/-- Float addition: `nan` propagates, `inf + (-inf) = nan`. -/
def add : Scalar → Scalar → Scalar
  | nan, _ => nan
  | _, nan => nan
  | inf, negInf => nan
  | negInf, inf => nan
  | inf, _ => inf
  | _, inf => inf
  | negInf, _ => negInf
  | _, negInf => negInf
  | fin a, fin b => fin (a + b)

/-- Float subtraction. -/
def sub (a b : Scalar) : Scalar := add a (neg b)

/-- Float multiplication: `nan` propagates, `inf * 0 = nan`. -/
def mul : Scalar → Scalar → Scalar
  | nan, _ => nan
  | _, nan => nan
  | inf, inf => inf
  | inf, negInf => negInf
  | negInf, inf => negInf
  | negInf, negInf => inf
  | inf, fin q => if 0 < q then inf else if q < 0 then negInf else nan
  | fin q, inf => if 0 < q then inf else if q < 0 then negInf else nan
  | negInf, fin q => if 0 < q then negInf else if q < 0 then inf else nan
  | fin q, negInf => if 0 < q then negInf else if q < 0 then inf else nan
  | fin a, fin b => fin (a * b)

/-- Float division: `nan` propagates, `inf / inf = nan`, finite over
infinite is `0`, division by zero gives a signed infinity (or `nan` for
`0 / 0`); rationals have no signed zero, so zero counts as positive. -/
def div : Scalar → Scalar → Scalar
  | nan, _ => nan
  | _, nan => nan
  | inf, inf => nan
  | inf, negInf => nan
  | negInf, inf => nan
  | negInf, negInf => nan
  | fin _, inf => fin 0
  | fin _, negInf => fin 0
  | inf, fin q => if q < 0 then negInf else inf
  | negInf, fin q => if q < 0 then inf else negInf
  | fin a, fin b =>
      if b = 0 then (if a = 0 then nan else if 0 < a then inf else negInf)
      else fin (a / b)

/-- Float absolute value. -/
def sabs : Scalar → Scalar
  | nan => nan
  | negInf => inf
  | inf => inf
  | fin q => if q < 0 then fin (-q) else fin q

/-- Float strict comparison as the boolean a `jnp` comparison yields:
every comparison against `nan` is false. -/
def blt : Scalar → Scalar → Bool
  | nan, _ => false
  | _, nan => false
  | negInf, negInf => false
  | negInf, _ => true
  | _, negInf => false
  | inf, _ => false
  | fin _, inf => true
  | fin a, fin b => decide (a < b)

instance : Add Scalar := ⟨add⟩
instance : Sub Scalar := ⟨sub⟩
instance : Mul Scalar := ⟨mul⟩
instance : Div Scalar := ⟨div⟩
instance : Neg Scalar := ⟨neg⟩

end Scalar

/-- The solver result enumeration `RESULTS` from `optimistix/_solution.py`.
Modelled from the spec: the staged sources import `RESULTS` but its module is
not under `src/`; the spec's error taxonomy (§7) names a success kind, a
linear-solve failure kind and an inner-iteration-exhaustion kind. -/
inductive RESULTS where
  | successful : RESULTS
  | linear_solve_failure : RESULTS
  | inner_iteration_exhausted : RESULTS
deriving DecidableEq

namespace RESULTS

/-- Modelled from the spec: `RESULTS.where(pred, a, b)` (module not under
`src/`) selects `a` where `pred` holds and `b` elsewhere, like `jnp.where`.
Named `select` because `where` is a Lean keyword. -/
def select (pred : Bool) (a b : RESULTS) : RESULTS := if pred then a else b

end RESULTS

/-- Modelled from the spec: `tree_zeros` from `optimistix/_misc.py` (not under
`src/`) builds a zero-filled tree of the given structure; on a flat list
structure of length `n` it is `n` zeros. -/
def tree_zeros (n : ℕ) : List Scalar := List.replicate n (Scalar.fin 0)

/-- Modelled from the spec: `tree_full_like` from `optimistix/_misc.py` (not
under `src/`) fills a tree of the same structure as `y` with the value `v`. -/
def tree_full_like (y : List Scalar) (v : Scalar) : List Scalar :=
  y.map (fun _ => v)

/-- Modelled from the spec: `tree_where` from `optimistix/_misc.py` (not under
`src/`) selects between two trees on a boolean predicate. -/
def tree_where (pred : Bool) (a b : List Scalar) : List Scalar :=
  if pred then a else b

/-- Modelled from the spec: `sum_squares` from `optimistix/_misc.py` (not
under `src/`) is the sum of squared residual components. -/
def sum_squares (v : List Scalar) : Scalar :=
  (v.map (fun x => x * x)).foldl (· + ·) (Scalar.fin 0)

/-- Componentwise addition of two parameter trees, `(y**ω + diff**ω).ω`. -/
def yadd (a b : List Scalar) : List Scalar := List.zipWith (· + ·) a b

/-- A Jacobian linear operator, represented by its entries. -/
abbrev Operator : Type := List (List Scalar)

/-- The state record `_GNState` of the Gauss-Newton state machine, field for
field (`step` is the iteration counter, a natural number here). -/
structure GNState (D A : Type) where
  descent_state : D
  vector : List Scalar
  operator : Operator
  diff : List Scalar
  result : RESULTS
  f_val : Scalar
  f_prev : Scalar
  next_init : Scalar
  aux : A
  step : ℕ
deriving DecidableEq

/-- The one-dimensional sub-problem `OneDimensionalFunction(line_search_fn,
descent, y)` handed to the line search, as the data its constructor is given
(its class lives in `optimistix/_line_search.py`, not under `src/`; the
sub-problem's behaviour belongs to the consumed `minimise` collaborator). -/
structure OneDimensionalFunction (A Args : Type) where
  fn : List Scalar → Args → Scalar × A
  descent : Scalar → List Scalar × RESULTS
  y : List Scalar

/-- The options dictionary built by `AbstractGaussNewton.step` for the
line search: keys `f0`, `compute_f0`, `vector`, `operator`, `diff` (holding
the base point `y`) and `predicted_reduction`. -/
structure SearchOptions (A : Type) where
  f0 : Scalar
  compute_f0 : Bool
  vector : List Scalar
  operator : Operator
  diff : List Scalar
  predicted_reduction : Scalar → Scalar

/-- The solution object returned by the `minimise` driver: `aux` carries the
five-tuple `(f_val, diff, new_aux, result, next_init)` the line-search
solvers pack, together with the driver's own `result`. -/
structure Solution (A : Type) where
  aux : Scalar × List Scalar × A × RESULTS × Scalar
  result : RESULTS

/-- The `AbstractGaussNewton` solver: its configuration fields (`rtol`,
`atol`, `norm`) together with the operations of its consumed collaborators
(the line search's `first_init`, the generic `minimise` driver, the descent
strategy's call/`predicted_reduction`/`update_state`/`init_state`, the
evaluator `compute_jac_residual`, and the literal empty options dict `{}`),
none of which are staged under `src/`: theorems quantify over all of them.
`D` is the descent state's type, `A` the auxiliary output's type, `Args` the
type of the user's `args`, `O` the type of options dictionaries. -/
structure AbstractGaussNewton (D A Args O : Type) where
  rtol : Scalar
  atol : Scalar
  norm : List Scalar → Scalar
  line_search_first_init : List Scalar → Operator → O → Scalar
  minimise : OneDimensionalFunction A Args → Scalar → Args → SearchOptions A →
    ℕ → Bool → Solution A
  descent_call : Scalar → D → Args → O → List Scalar × RESULTS
  descent_predicted_reduction : Scalar → D → Args → O → Scalar
  descent_update_state : D → List Scalar → List Scalar → Operator →
    Option Operator → O → D
  descent_init_state : (List Scalar → Args → List Scalar × A) → List Scalar →
    List Scalar → Operator → Option Operator → Args → O → D
  compute_jac_residual : (List Scalar → Args → List Scalar × A) →
    List Scalar → Args → List Scalar × Operator × A
  emptyOptions : O

variable {D A Args O : Type}

/-- `AbstractGaussNewton.init`: the placeholder residual vector and operator
are filled with ones from the shape descriptors (`f_struct` is the residual's
length, `aux_struct` the auxiliary output's length, the operator's shape is
`f_struct × y.length`); `f_val = f_prev = +inf`, `diff` is `+inf`-filled,
`next_init = 1.0`, `step = 0`, `result = successful`, `aux` zero-filled.
The residual function is passed only to the descent strategy's
`init_state`; no residual or Jacobian evaluation feeds any field. -/
def init (G : AbstractGaussNewton D (List Scalar) Args O)
    (fn : List Scalar → Args → List Scalar × List Scalar)
    (y : List Scalar) (args : Args) (_options : O)
    (f_struct aux_struct : ℕ) : GNState D (List Scalar) :=
  let f0 := Scalar.inf
  let aux := tree_zeros aux_struct
  let vector := List.replicate f_struct (Scalar.fin 1)
  let operator : Operator :=
    List.replicate f_struct (List.replicate y.length (Scalar.fin 1))
  let descent_state :=
    G.descent_init_state fn y vector operator none args G.emptyOptions
  { descent_state := descent_state
    vector := vector
    operator := operator
    diff := tree_full_like y Scalar.inf
    result := RESULTS.successful
    f_val := f0
    f_prev := f0
    next_init := Scalar.fin 1
    aux := aux
    step := 0 }

/-- The one-dimensional sub-problem built inside `AbstractGaussNewton.step`:
`line_search_fn` squares and sums the residual, the descent is partially
bound to the incoming descent state, `args` and `options`. -/
def stepProblem (G : AbstractGaussNewton D A Args O)
    (fn : List Scalar → Args → List Scalar × A)
    (y : List Scalar) (args : Args) (options : O) (s : GNState D A) :
    OneDimensionalFunction A Args :=
  { fn := fun x a => (sum_squares (fn x a).1, (fn x a).2)
    descent := fun t => G.descent_call t s.descent_state args options
    y := y }

/-- The `line_search_options` dictionary built inside
`AbstractGaussNewton.step`. -/
def stepSearchOptions (G : AbstractGaussNewton D A Args O)
    (y : List Scalar) (args : Args) (s : GNState D A) : SearchOptions A :=
  { f0 := if 1 < s.step then s.f_val else Scalar.inf
    compute_f0 := s.step == 1
    vector := s.vector
    operator := s.operator
    diff := y
    predicted_reduction := fun t =>
      G.descent_predicted_reduction t s.descent_state args G.emptyOptions }

/-- The initial step-size guess `init` chosen inside
`AbstractGaussNewton.step`: the line search's `first_init` at `step <= 1`,
the carried `next_init` otherwise. -/
def stepFirstGuess (G : AbstractGaussNewton D A Args O)
    (options : O) (s : GNState D A) : Scalar :=
  if s.step ≤ 1 then G.line_search_first_init s.vector s.operator options
  else s.next_init

/-- The `minimise` call inside `AbstractGaussNewton.step`: the sub-problem,
the initial guess, the options dictionary, `max_steps=100`, `throw=False`. -/
def stepLineSol (G : AbstractGaussNewton D A Args O)
    (fn : List Scalar → Args → List Scalar × A)
    (y : List Scalar) (args : Args) (options : O) (s : GNState D A) :
    Solution A :=
  G.minimise (stepProblem G fn y args options s) (stepFirstGuess G options s)
    args (stepSearchOptions G y args s) 100 false

/-- `AbstractGaussNewton.step`: run the line search, unpack
`(f_val, diff, new_aux, _, next_init)` from its `aux` (the fourth component
is destructured into `_` and never read), keep `y` unchanged at `step == 0`
and move to `y + diff` otherwise, re-evaluate residual and Jacobian at the
new point, update the descent state with the *previous* `diff`, and return
the new point, the new state, and the *incoming* state's `aux`. -/
def step (G : AbstractGaussNewton D A Args O)
    (fn : List Scalar → Args → List Scalar × A)
    (y : List Scalar) (args : Args) (options : O) (s : GNState D A) :
    List Scalar × GNState D A × A :=
  let line_sol := stepLineSol G fn y args options s
  let f_val := line_sol.aux.1
  let diff := line_sol.aux.2.1
  let new_aux := line_sol.aux.2.2.1
  let next_init := line_sol.aux.2.2.2.2
  let new_y := tree_where (decide (0 < s.step)) (yadd y diff) y
  let jr := G.compute_jac_residual fn new_y args
  let vector := jr.1
  let operator := jr.2.1
  let descent_state :=
    G.descent_update_state s.descent_state s.diff vector operator none options
  let new_state : GNState D A :=
    { descent_state := descent_state
      vector := vector
      operator := operator
      diff := diff
      result := RESULTS.successful
      f_val := f_val
      f_prev := s.f_val
      next_init := next_init
      aux := new_aux
      step := s.step + 1 }
  (new_y, new_state, s.aux)

/-- `AbstractGaussNewton.terminate`: the dual-tolerance convergence test
guarded by `step >= 2`, overridden by a non-successful `state.result`. -/
def terminate (G : AbstractGaussNewton D A Args O)
    (y : List Scalar) (s : GNState D A) :
    Bool × RESULTS :=
  let at_least_two := decide (2 ≤ s.step)
  let y_scale := y.map (fun yi => G.atol + G.rtol * Scalar.sabs yi)
  let y_converged :=
    Scalar.blt (G.norm (List.zipWith (· / ·) s.diff y_scale)) (Scalar.fin 1)
  let f_scale := G.rtol * Scalar.sabs s.f_prev + G.atol
  let f_converged :=
    Scalar.blt (Scalar.sabs (s.f_val - s.f_prev) / f_scale) (Scalar.fin 1)
  let converged := y_converged && f_converged
  let linsolve_fail := decide (s.result ≠ RESULTS.successful)
  let should_stop := linsolve_fail || (converged && at_least_two)
  let result := RESULTS.select linsolve_fail s.result RESULTS.successful
  (should_stop, result)

/-- Modelled from the spec: the bounded iteration inside the generic
`minimise` driver (`optimistix/_minimise.py`, not under `src/`): run the
one-dimensional solver's transition at most `fuel` times; stopping early
when its termination test fires is a success, running out of fuel is the
inner-iteration-exhaustion result. -/
def minimiseLoop {σ : Type} (stepFn : σ → σ) (done : σ → Bool) :
    ℕ → σ → σ × RESULTS
  | 0, st => (st, RESULTS.inner_iteration_exhausted)
  | n + 1, st =>
      if done st then (st, RESULTS.successful)
      else minimiseLoop stepFn done n (stepFn st)

/-- Modelled from the spec: the generic `minimise` driver
(`optimistix/_minimise.py`, not under `src/`): with `throw=True` a
non-successful result is raised as an error, with `throw=False` it is
returned as data in the solution. -/
def minimiseDriver {σ : Type} (stepFn : σ → σ) (done : σ → Bool) (s0 : σ)
    (max_steps : ℕ) (throw : Bool) : Except RESULTS (σ × RESULTS) :=
  let r := minimiseLoop stepFn done max_steps s0
  if throw && decide (r.2 ≠ RESULTS.successful) then Except.error r.2
  else Except.ok r

/-- A concrete solver assembly over trivial collaborator types, parametrised
by the `minimise` collaborator; used to evaluate the theorems below at
concrete inputs. -/
def mkGN (m : OneDimensionalFunction ℕ Unit → Scalar → Unit → SearchOptions ℕ →
    ℕ → Bool → Solution ℕ) : AbstractGaussNewton Unit ℕ Unit Unit :=
  { rtol := Scalar.fin (1 / 100)
    atol := Scalar.fin (1 / 100)
    norm := fun v => v.foldl (fun a b => a + Scalar.sabs b) (Scalar.fin 0)
    line_search_first_init := fun _ _ _ => Scalar.fin 1
    minimise := m
    descent_call := fun _ _ _ _ => ([], RESULTS.successful)
    descent_predicted_reduction := fun _ _ _ _ => Scalar.fin 0
    descent_update_state := fun d _ _ _ _ _ => d
    descent_init_state := fun _ _ _ _ _ _ _ => ()
    compute_jac_residual := fun f ny a => ((f ny a).1, [(f ny a).1], (f ny a).2)
    emptyOptions := () }

/-- A concrete line-search outcome whose packed `aux` tuple reports the
given inner status. -/
def demoSol (r : RESULTS) : Solution ℕ :=
  { aux := (Scalar.fin 5, [Scalar.fin 2], 7, r, Scalar.fin 3)
    result := RESULTS.successful }

/-- A concrete solver whose line search always succeeds. -/
def demoGN : AbstractGaussNewton Unit ℕ Unit Unit :=
  mkGN (fun _ _ _ _ _ _ => demoSol RESULTS.successful)

/-- A concrete solver whose line search reports a linear-solve failure in
the packed `aux` tuple (and inner-iteration exhaustion as its own result). -/
def failGN : AbstractGaussNewton Unit ℕ Unit Unit :=
  mkGN (fun _ _ _ _ _ _ =>
    { aux := (Scalar.fin 5, [Scalar.fin 2], 7, RESULTS.linear_solve_failure,
        Scalar.fin 3)
      result := RESULTS.inner_iteration_exhausted })

/-- A concrete residual function. -/
def demoFn : List Scalar → Unit → List Scalar × ℕ := fun x _ => (x, 0)

/-- A concrete incoming state with the given iteration counter. -/
def demoState (k : ℕ) : GNState Unit ℕ :=
  { descent_state := ()
    vector := [Scalar.fin 1]
    operator := [[Scalar.fin 1]]
    diff := [Scalar.fin 9]
    result := RESULTS.successful
    f_val := Scalar.fin 4
    f_prev := Scalar.inf
    next_init := Scalar.fin 2
    aux := 11
    step := k }

/-- Helper: the modelled bounded loop only ever reports success or
inner-iteration exhaustion. -/
theorem minimiseLoop_result {σ : Type} (stepFn : σ → σ) (done : σ → Bool) :
    ∀ (n : ℕ) (st : σ), (minimiseLoop stepFn done n st).2 = RESULTS.successful ∨
      (minimiseLoop stepFn done n st).2 = RESULTS.inner_iteration_exhausted := by
  intro n
  induction n with
  | zero => intro st; right; rfl
  | succ k ih =>
      intro st
      by_cases h : done st = true
      · left; simp [minimiseLoop, h]
      · simpa [minimiseLoop, h] using ih (stepFn st)

/-- Helper: when the termination test never fires, the modelled bounded loop
runs out of fuel and reports inner-iteration exhaustion. -/
theorem minimiseLoop_exhausts {σ : Type} (stepFn : σ → σ) (done : σ → Bool)
    (hnever : ∀ st, done st = false) :
    ∀ (n : ℕ) (st : σ),
      (minimiseLoop stepFn done n st).2 = RESULTS.inner_iteration_exhausted := by
  intro n
  induction n with
  | zero => intro st; rfl
  | succ k ih => intro st; simpa [minimiseLoop, hnever st] using ih (stepFn st)

/-- C2: `terminate` stops exactly when the state's `result` is
non-successful, or `step >= 2` together with the scaled-displacement norm
test and the relative objective-change test both strictly below 1. -/
theorem terminate_stop_iff (G : AbstractGaussNewton D A Args O)
    (y : List Scalar) (s : GNState D A) :
    (terminate G y s).1 = true ↔
      s.result ≠ RESULTS.successful ∨
        (2 ≤ s.step ∧
          Scalar.blt (G.norm (List.zipWith (· / ·) s.diff
            (y.map fun yi => G.atol + G.rtol * Scalar.sabs yi)))
            (Scalar.fin 1) = true ∧
          Scalar.blt (Scalar.sabs (s.f_val - s.f_prev) /
            (G.rtol * Scalar.sabs s.f_prev + G.atol))
            (Scalar.fin 1) = true) := by
  simp only [terminate, Bool.or_eq_true, Bool.and_eq_true, decide_eq_true_eq]
  tauto

/-- C3: `init` produces a state with `f_val = +inf`, `step = 0`,
`next_init = 1.0`, `result = successful`, zero-filled auxiliary output, a
ones-filled placeholder residual vector and a ones-filled placeholder
Jacobian operator; every field is the same constant for every residual
function (no real residual/Jacobian evaluation feeds any field). -/
theorem init_state_fields (G : AbstractGaussNewton D (List Scalar) Args O)
    (fn : List Scalar → Args → List Scalar × List Scalar)
    (y : List Scalar) (args : Args) (options : O) (fS aS : ℕ) :
    (init G fn y args options fS aS).f_val = Scalar.inf ∧
    (init G fn y args options fS aS).step = 0 ∧
    (init G fn y args options fS aS).next_init = Scalar.fin 1 ∧
    (init G fn y args options fS aS).result = RESULTS.successful ∧
    (init G fn y args options fS aS).aux =
      List.replicate aS (Scalar.fin 0) ∧
    (init G fn y args options fS aS).vector =
      List.replicate fS (Scalar.fin 1) ∧
    (init G fn y args options fS aS).operator =
      List.replicate fS (List.replicate y.length (Scalar.fin 1)) :=
  ⟨rfl, rfl, rfl, rfl, rfl, rfl, rfl⟩

/-- C4: the parameter returned by `step` is `y` unchanged when the incoming
counter is 0, and `y + diff` with `diff` the displacement accepted by this
call's line search when the counter is positive. -/
theorem step_y_update (G : AbstractGaussNewton D A Args O)
    (fn : List Scalar → Args → List Scalar × A)
    (y : List Scalar) (args : Args) (options : O) (s : GNState D A) :
    (s.step = 0 → (step G fn y args options s).1 = y) ∧
    (0 < s.step → (step G fn y args options s).1 =
      yadd y (stepLineSol G fn y args options s).aux.2.1) := by
  constructor
  · intro h
    simp [step, tree_where, h]
  · intro h
    simp [step, tree_where, h]

/-- C4 witness: at an incoming counter of 0 the parameter is returned
unchanged, at counter 3 it is `y + diff`. -/
theorem step_y_update_w :
    (step demoGN demoFn [Scalar.fin 1] () () (demoState 0)).1 =
      [Scalar.fin 1] ∧
    (step demoGN demoFn [Scalar.fin 1] () () (demoState 3)).1 =
      yadd [Scalar.fin 1]
        (stepLineSol demoGN demoFn [Scalar.fin 1] () () (demoState 3)).aux.2.1 :=
  ⟨(step_y_update demoGN demoFn [Scalar.fin 1] () () (demoState 0)).1 rfl,
   (step_y_update demoGN demoFn [Scalar.fin 1] () () (demoState 3)).2
     (by decide)⟩

/-- C9: the descent strategy's state update receives the *previous*
accepted displacement `s.diff` together with the residual vector and
Jacobian operator freshly evaluated at the returned parameter, and the new
state stores that vector and operator together. -/
theorem step_descent_update (G : AbstractGaussNewton D A Args O)
    (fn : List Scalar → Args → List Scalar × A)
    (y : List Scalar) (args : Args) (options : O) (s : GNState D A) :
    (step G fn y args options s).2.1.descent_state =
      G.descent_update_state s.descent_state s.diff
        (G.compute_jac_residual fn (step G fn y args options s).1 args).1
        (G.compute_jac_residual fn (step G fn y args options s).1 args).2.1
        none options ∧
    (step G fn y args options s).2.1.vector =
      (G.compute_jac_residual fn (step G fn y args options s).1 args).1 ∧
    (step G fn y args options s).2.1.operator =
      (G.compute_jac_residual fn (step G fn y args options s).1 args).2.1 :=
  ⟨rfl, rfl, rfl⟩

/-- C10: whatever status the line-search solution reports, `step` writes
`RESULTS.successful` into the new state's `result` field. -/
theorem step_result_always_successful (G : AbstractGaussNewton D A Args O)
    (fn : List Scalar → Args → List Scalar × A)
    (y : List Scalar) (args : Args) (options : O) (s : GNState D A) :
    (step G fn y args options s).2.1.result = RESULTS.successful :=
  rfl

/-- C1: a concrete `step` call whose line search reports a linear-solve
failure (and inner-iteration exhaustion as the driver result) still yields
a state with `result = successful`, and the following `terminate` returns
`(false, successful)`: the reported failure is dropped and iteration
continues, contradicting the claim. -/
theorem step_drops_inner_failure :
    (step failGN demoFn [Scalar.fin 1] () () (demoState 3)).2.1.result =
      RESULTS.successful ∧
    (terminate failGN [Scalar.fin 1]
      (step failGN demoFn [Scalar.fin 1] () () (demoState 3)).2.1).1 = false ∧
    (terminate failGN [Scalar.fin 1]
      (step failGN demoFn [Scalar.fin 1] () () (demoState 3)).2.1).2 =
      RESULTS.successful := by
  refine ⟨rfl, ?_, rfl⟩
  norm_num [terminate, step, stepLineSol, stepProblem, stepFirstGuess,
    stepSearchOptions, failGN, mkGN, demoSol, demoFn, demoState, tree_where,
    yadd, RESULTS.select, Scalar.sabs, Scalar.blt, Scalar.add, Scalar.mul,
    Scalar.div, Scalar.sub, Scalar.neg, HAdd.hAdd, Add.add, HMul.hMul,
    Mul.mul, HDiv.hDiv, Div.div, HSub.hSub, Sub.sub, List.foldl]

/-- C5: the auxiliary value surfaced by `step` is the incoming state's
`aux` (the previous call's line-search evaluation); the auxiliary computed
by this call's line search is stored in the new state instead; composing,
the call made at `step == 1` surfaces the step-0 call's line-search
evaluation, made while the parameter output was still the initial point. -/
theorem step_aux_delayed (G : AbstractGaussNewton D A Args O)
    (fn : List Scalar → Args → List Scalar × A)
    (y : List Scalar) (args : Args) (options : O) (s : GNState D A) :
    (step G fn y args options s).2.2 = s.aux ∧
    (step G fn y args options s).2.1.aux =
      (stepLineSol G fn y args options s).aux.2.2.1 ∧
    (s.step = 0 → ∀ (y' : List Scalar) (args' : Args) (options' : O),
      (step G fn y' args' options'
        ((step G fn y args options s).2.1)).2.2 =
        (stepLineSol G fn y args options s).aux.2.2.1) := by
  refine ⟨rfl, rfl, ?_⟩
  intro _ y' args' options'
  rfl

/-- C5 witness: surfacing the step-0 call's line-search auxiliary at the
next call, on concrete inputs. -/
theorem step_aux_delayed_w :
    (step demoGN demoFn [] () ()
      ((step demoGN demoFn [Scalar.fin 1] () () (demoState 0)).2.1)).2.2 =
      (stepLineSol demoGN demoFn [Scalar.fin 1] () ()
        (demoState 0)).aux.2.2.1 :=
  (step_aux_delayed demoGN demoFn [Scalar.fin 1] () () (demoState 0)).2.2
    rfl [] () ()

/-- C6: the initial step-size guess handed to the bounded sub-iteration is
the line search's `first_init` when the counter is at most 1 and the
carried `next_init` otherwise, and it is exactly the guess the `minimise`
call receives. -/
theorem step_first_guess_choice (G : AbstractGaussNewton D A Args O)
    (fn : List Scalar → Args → List Scalar × A)
    (y : List Scalar) (args : Args) (options : O) (s : GNState D A) :
    (s.step ≤ 1 → stepFirstGuess G options s =
      G.line_search_first_init s.vector s.operator options) ∧
    (1 < s.step → stepFirstGuess G options s = s.next_init) ∧
    stepLineSol G fn y args options s =
      G.minimise (stepProblem G fn y args options s)
        (stepFirstGuess G options s) args (stepSearchOptions G y args s)
        100 false := by
  refine ⟨?_, ?_, rfl⟩
  · intro h
    simp [stepFirstGuess, h]
  · intro h
    rw [stepFirstGuess, if_neg (by omega)]

/-- C6 witness: the method-specific first guess at counter 0, the carried
`next_init` at counter 3, on concrete inputs. -/
theorem step_first_guess_choice_w :
    stepFirstGuess demoGN () (demoState 0) =
      demoGN.line_search_first_init (demoState 0).vector
        (demoState 0).operator () ∧
    stepFirstGuess demoGN () (demoState 3) = (demoState 3).next_init :=
  ⟨(step_first_guess_choice demoGN demoFn [] () () (demoState 0)).1
      (by decide),
   (step_first_guess_choice demoGN demoFn [] () () (demoState 3)).2.1
      (by decide)⟩

/-- C7: the options dictionary handed to the line search holds `f0` (the
previous accepted objective when the counter exceeds 1, `+inf` otherwise),
the `compute_f0` flag true exactly at counter 1, the current residual
vector, the current Jacobian operator, the current parameter as base point,
and the closure for the descent strategy's predicted reduction; it is
exactly the dictionary the `minimise` call receives. -/
theorem step_search_options_spec (G : AbstractGaussNewton D A Args O)
    (fn : List Scalar → Args → List Scalar × A)
    (y : List Scalar) (args : Args) (options : O) (s : GNState D A) :
    (1 < s.step → (stepSearchOptions G y args s).f0 = s.f_val) ∧
    (¬ 1 < s.step → (stepSearchOptions G y args s).f0 = Scalar.inf) ∧
    ((stepSearchOptions G y args s).compute_f0 = true ↔ s.step = 1) ∧
    (stepSearchOptions G y args s).vector = s.vector ∧
    (stepSearchOptions G y args s).operator = s.operator ∧
    (stepSearchOptions G y args s).diff = y ∧
    (stepSearchOptions G y args s).predicted_reduction = (fun t =>
      G.descent_predicted_reduction t s.descent_state args G.emptyOptions) ∧
    stepLineSol G fn y args options s =
      G.minimise (stepProblem G fn y args options s)
        (stepFirstGuess G options s) args (stepSearchOptions G y args s)
        100 false := by
  refine ⟨?_, ?_, ?_, rfl, rfl, rfl, rfl, rfl⟩
  · intro h
    simp [stepSearchOptions, h]
  · intro h
    simp [stepSearchOptions, h]
  · simp [stepSearchOptions]

/-- C7 witness: the reference objective and the `compute_f0` flag at
concrete counters 3, 0 and 1. -/
theorem step_search_options_spec_w :
    (stepSearchOptions demoGN [Scalar.fin 1] () (demoState 3)).f0 =
      (demoState 3).f_val ∧
    (stepSearchOptions demoGN [Scalar.fin 1] () (demoState 0)).f0 =
      Scalar.inf ∧
    (stepSearchOptions demoGN [Scalar.fin 1] () (demoState 1)).compute_f0 =
      true :=
  ⟨(step_search_options_spec demoGN demoFn [Scalar.fin 1] () ()
      (demoState 3)).1 (by decide),
   (step_search_options_spec demoGN demoFn [Scalar.fin 1] () ()
      (demoState 0)).2.1 (by decide),
   ((step_search_options_spec demoGN demoFn [Scalar.fin 1] () ()
      (demoState 1)).2.2.1).mpr rfl⟩

/-- C8: the line-search sub-problem is run through `minimise` with a hard
cap of 100 sub-iterations and `throw=False`; under the spec's model of that
driver, with `throw=False` the call always returns a solution (never an
error), its result is success or inner-iteration exhaustion, and reaching
the cap without convergence yields the inner-iteration-exhaustion result as
data. -/
theorem step_inner_bounded (G : AbstractGaussNewton D A Args O)
    (fn : List Scalar → Args → List Scalar × A)
    (y : List Scalar) (args : Args) (options : O) (s : GNState D A)
    {σ : Type} (stepFn : σ → σ) (done : σ → Bool) (s0 : σ) :
    stepLineSol G fn y args options s =
      G.minimise (stepProblem G fn y args options s)
        (stepFirstGuess G options s) args (stepSearchOptions G y args s)
        100 false ∧
    (∃ out, minimiseDriver stepFn done s0 100 false = Except.ok out) ∧
    (∀ out, minimiseDriver stepFn done s0 100 false = Except.ok out →
      out.2 = RESULTS.successful ∨
        out.2 = RESULTS.inner_iteration_exhausted) ∧
    ((∀ st, done st = false) →
      ∃ stEnd, minimiseDriver stepFn done s0 100 false =
        Except.ok (stEnd, RESULTS.inner_iteration_exhausted)) := by
  refine ⟨rfl, ⟨minimiseLoop stepFn done 100 s0, by simp [minimiseDriver]⟩,
    ?_, ?_⟩
  · intro out hout
    have h : minimiseLoop stepFn done 100 s0 = out := by
      simpa [minimiseDriver] using hout
    rw [← h]
    exact minimiseLoop_result stepFn done 100 s0
  · intro hnever
    refine ⟨(minimiseLoop stepFn done 100 s0).1, ?_⟩
    have h2 := minimiseLoop_exhausts stepFn done hnever 100 s0
    simp only [minimiseDriver, Bool.false_and, if_neg Bool.false_ne_true]
    rw [← h2]

/-- C8 witness: the modelled driver at cap 100 with `throw=False` returns
a solution on concrete inputs. -/
theorem step_inner_bounded_w :
    ∃ out, minimiseDriver id (fun _ : Unit => true) () 100 false =
      Except.ok out :=
  (step_inner_bounded demoGN demoFn [] () () (demoState 0) id
    (fun _ => true) ()).2.1

end Optimistix
